import Mathlib

/-!
# Verification of the customer-support chat pipeline

Shallow embedding of the message-processing core of the repository
(`ChatService` in `backend/src/services/chat.ts` and
`KnowledgeBaseService` in `backend/src/services/knowledgeBase.ts`),
together with theorems settling the frozen claims about it.

Modelling conventions:
* the JavaScript `Map<string, ChatMessage[]>` holding conversations is an
  association list kept in insertion order (JS `Map` iterates in insertion
  order); `Map.get` is first-match lookup, `Map.set` replaces the first
  matching entry in place or appends, `Map.delete` removes the first
  matching entry;
* JS numbers that the code only adds, divides and rounds are `Rat`
  (`Math.round x = Int.floor (x + 1/2)` for the non-negative values that
  arise here);
* `async` methods that can reject are functions into `Except String`, the
  string being the thrown `Error`'s message;
* external collaborators (AI service, MindsDB engine) are parameters: a
  record of functions supplying, for the single call the pipeline makes to
  each of them, the value returned or the error thrown.
-/

namespace SupportApp

/-- Metadata carried by a stored chat message
(`ChatMessage.metadata` in `backend/src/types/index.ts`); every field is
optional on the TypeScript side. -/
structure MessageMetadata where
  confidence : Option ℚ := none
  sources : Option (List String) := none
  category : Option String := none
  priority : Option String := none
  deriving Repr, DecidableEq

/-- A stored chat message (`ChatMessage` in the backend types): id, content,
role (the code uses the literals "user" and "assistant"), a timestamp
(milliseconds), and optional metadata. -/
structure ChatMessage where
  id : String
  content : String
  role : String
  timestamp : Nat
  metadata : Option MessageMetadata := none
  deriving Repr, DecidableEq

/-- The in-memory conversation store: `ChatService.conversations`, a JS
`Map<string, ChatMessage[]>`, embedded as an insertion-ordered association
list. -/
abbrev ConversationStore := List (String × List ChatMessage)

/-- JS `Map.get`: the value of the first entry with the given key. -/
def mapGet : ConversationStore → String → Option (List ChatMessage)
  | [], _ => none
  | (k, v) :: rest, key => if k = key then some v else mapGet rest key

/-- JS `Map.set`: replace the first entry with the given key in place, or
append a new entry at the end. -/
def mapSet : ConversationStore → String → List ChatMessage → ConversationStore
  | [], key, val => [(key, val)]
  | (k, v) :: rest, key, val =>
      if k = key then (key, val) :: rest else (k, v) :: mapSet rest key val

/-- JS `Map.delete`: remove the first entry with the given key (the boolean
`Map.delete` returns is ignored by the source, see `clearConversation`). -/
def mapDelete : ConversationStore → String → ConversationStore
  | [], _ => []
  | (k, v) :: rest, key =>
      if k = key then rest else (k, v) :: mapDelete rest key

theorem mapGet_mapSet_same (s : ConversationStore) (k : String)
    (v : List ChatMessage) : mapGet (mapSet s k v) k = some v := by
  induction s with
  | nil => simp [mapSet, mapGet]
  | cons hd tl ih =>
      obtain ⟨k0, v0⟩ := hd
      by_cases h : k0 = k
      · simp [mapSet, h, mapGet]
      · simp [mapSet, h, mapGet, ih]

theorem mapGet_mapSet_other (s : ConversationStore) (k k2 : String)
    (v : List ChatMessage) (hne : k2 ≠ k) :
    mapGet (mapSet s k v) k2 = mapGet s k2 := by
  induction s with
  | nil => simp [mapSet, mapGet, Ne.symm hne]
  | cons hd tl ih =>
      obtain ⟨k0, v0⟩ := hd
      by_cases h : k0 = k
      · subst h
        simp [mapSet, mapGet, Ne.symm hne]
      · by_cases h2 : k0 = k2
        · simp [mapSet, h, mapGet, h2, hne]
        · simp [mapSet, h, mapGet, h2, ih]

theorem mapGet_eq_none_of_not_mem (s : ConversationStore) (k : String)
    (h : k ∉ s.map Prod.fst) : mapGet s k = none := by
  induction s with
  | nil => simp [mapGet]
  | cons hd tl ih =>
      obtain ⟨k0, v0⟩ := hd
      simp only [List.map_cons, List.mem_cons] at h
      push_neg at h
      simp [mapGet, Ne.symm h.1, ih h.2]

theorem mapGet_mapDelete_same (s : ConversationStore) (k : String)
    (hnd : (s.map Prod.fst).Nodup) : mapGet (mapDelete s k) k = none := by
  induction s with
  | nil => simp [mapDelete, mapGet]
  | cons hd tl ih =>
      obtain ⟨k0, v0⟩ := hd
      simp only [List.map_cons, List.nodup_cons] at hnd
      by_cases h : k0 = k
      · subst h
        simp only [mapDelete, if_pos rfl]
        exact mapGet_eq_none_of_not_mem tl k0 hnd.1
      · simp [mapDelete, h, mapGet, ih hnd.2]

/-- JS `a || b` for an optional string `a`: yields `b` when `a` is absent
or the empty string (both falsy in JS), and the string otherwise. -/
def jsOrStr (a : Option String) (b : String) : String :=
  match a with
  | some s => if s = "" then b else s
  | none => b

/-- Output of the external query classifier
(`aiService.classifyQuery`); `ChatService` reads only `category` and
passes the record through otherwise. -/
structure QueryClassification where
  category : String
  confidence : ℚ
  deriving Repr, DecidableEq

/-- Output of the external response generator
(`aiService.generateResponse`); `ChatService` reads `response` and
`confidence`. -/
structure GenerationResult where
  response : String
  confidence : ℚ
  deriving Repr, DecidableEq

/-- Search filters (`SearchFilters` in `knowledgeBase.ts`); every field is
optional on the TypeScript side, `none` meaning the field is absent. -/
structure SearchFilters where
  category : Option String := none
  priority : Option String := none
  product_type : Option String := none
  limit : Option Nat := none
  relevance_threshold : Option ℚ := none
  deriving Repr, DecidableEq

/-- A normalized knowledge-base entry as the retriever produces it.
Fields that the normalization can leave `undefined` are `Option`. -/
structure KnowledgeBaseEntry where
  id : Option String
  title : String
  content : Option String
  category : String
  priority : String
  product_type : Option String := none
  tags : List String := []
  last_updated : Nat := 0
  chunk_content : Option String := none
  relevance : Option ℚ := none
  distance : Option ℚ := none
  deriving Repr, DecidableEq

/-- Inbound chat request (`ChatRequest`): required message text, optional
conversation id and user id. The optional `context` field of the
TypeScript type is never read by `ChatService` and is omitted. -/
structure ChatRequest where
  message : String
  conversation_id : Option String := none
  user_id : Option String := none
  deriving Repr, DecidableEq

/-- Metadata block of an outbound `ChatResponse`. -/
structure ResponseMetadata where
  processing_time : Nat
  category : String
  priority : String
  deriving Repr, DecidableEq

/-- Outbound response assembled by `processMessage` (`ChatResponse`). -/
structure ChatResponse where
  message : String
  confidence : ℚ
  sources : List KnowledgeBaseEntry
  suggested_actions : List String
  requires_escalation : Bool
  conversation_id : String
  metadata : ResponseMetadata
  deriving Repr, DecidableEq

/-- Embedding of `ChatService.getConversationHistory`: the stored list, or
`[]` for an unknown conversation id. -/
def getConversationHistory (s : ConversationStore) (conversationId : String) :
    List ChatMessage :=
  (mapGet s conversationId).getD []

/-- Embedding of `ChatService.saveMessage`. The try-body reads the
conversation's list (or `[]`), pushes the message and re-`set`s the map;
`outcome` stands for that body's fate: `.ok` when it completes (always the
case for the in-memory store) and `.error` when it throws — the catch
branch the source keeps for a future persistent backend. The catch only
logs and returns `false`; the method itself never throws. -/
def saveMessage (outcome : Except String Unit) (s : ConversationStore)
    (conversationId : String) (message : ChatMessage) :
    ConversationStore × Bool :=
  match outcome with
  | .ok _ =>
      let messages := (mapGet s conversationId).getD []
      (mapSet s conversationId (messages ++ [message]), true)
  | .error _ => (s, false)

/-- Embedding of `ChatService.clearConversation`: calls `Map.delete` and
returns `true` unconditionally — the boolean `Map.delete` reports is
discarded by the source. -/
def clearConversation (s : ConversationStore) (conversationId : String) :
    ConversationStore × Bool :=
  (mapDelete s conversationId, true)

/-- Embedding of `ChatService.getUserConversations userId`: walks the
conversations map in insertion order and collects the ids of conversations
containing at least one message with role "user". The `userId` parameter
is accepted but never read (the source comment says a real app would check
`user_id`). -/
def getUserConversations (userId : String) (s : ConversationStore) :
    List String :=
  (s.filter fun p => p.2.any fun m => m.role == "user").map Prod.fst

/-- The source's `highPriorityCategories` constant. -/
def highPriorityCategories : List String := ["billing", "refund", "complaint"]

/-- The source's `mediumPriorityCategories` constant. -/
def mediumPriorityCategories : List String := ["technical", "shipping", "returns"]

/-- Embedding of `ChatService.determinePriority`. -/
def determinePriority (classification : QueryClassification)
    (requiresEscalation : Bool) : String :=
  if requiresEscalation then "high"
  else if highPriorityCategories.contains classification.category then "high"
  else if mediumPriorityCategories.contains classification.category then "medium"
  else "low"

/-- JS `Math.round` for the non-negative rationals arising here:
`⌊x + 1/2⌋`. -/
def jsRound (x : ℚ) : ℤ := ⌊x + 1/2⌋

/-- The source's two-decimal rounding idiom `Math.round (x * 100) / 100`. -/
def roundTo2 (x : ℚ) : ℚ := (jsRound (x * 100) : ℚ) / 100

/-- Result record of `ChatService.getStats`. -/
structure ChatStats where
  total_conversations : Nat
  total_messages : Nat
  average_messages_per_conversation : ℚ
  escalation_rate : ℚ
  deriving Repr, DecidableEq

/-- The escalation test `getStats` applies to a conversation:
`msg.role === 'assistant' && msg.metadata?.category === 'escalation'` for
some message of the conversation. -/
def hasEscalationMessage (messages : List ChatMessage) : Bool :=
  messages.any fun m =>
    m.role == "assistant" &&
      (m.metadata.bind MessageMetadata.category) == some "escalation"

/-- Embedding of `ChatService.getStats`: one scan of the conversations
map, counting conversations, messages and conversations with an
"escalation"-categorised assistant message; averages guarded against an
empty map and rounded to two decimals. -/
def getStats (s : ConversationStore) : ChatStats :=
  let totalConversations := s.length
  let totalMessages := (s.map fun p => p.2.length).sum
  let escalatedConversations := (s.filter fun p => hasEscalationMessage p.2).length
  { total_conversations := totalConversations
    total_messages := totalMessages
    average_messages_per_conversation :=
      if totalConversations > 0 then
        roundTo2 ((totalMessages : ℚ) / (totalConversations : ℚ))
      else 0
    escalation_rate :=
      if totalConversations > 0 then
        roundTo2 ((escalatedConversations : ℚ) / (totalConversations : ℚ))
      else 0 }

/-- The search-filter record `processMessage` builds for the knowledge
retriever (source lines: `category: classification.category !== 'general'
? classification.category : undefined, limit: 5,
relevance_threshold: 0.7`). -/
def searchFiltersOf (classification : QueryClassification) : SearchFilters :=
  { category :=
      if classification.category ≠ "general" then some classification.category
      else none
    limit := some 5
    relevance_threshold := some (7 / 10) }

/-- Nondeterministic inputs of one `processMessage` call that the source
draws from the clock and the random generator: the generated conversation
id, the two message ids, their timestamps, and the measured processing
time. -/
structure PipelineEnv where
  genConvId : String
  userMsgId : String
  assistantMsgId : String
  userMsgTime : Nat
  assistantMsgTime : Nat
  processingTime : Nat
  deriving Repr, DecidableEq

/-- External collaborators of one `processMessage` call, each given by the
value it returns (or the error it throws) for the single invocation the
pipeline makes, plus the fate of the two `saveMessage` try-bodies (see
`saveMessage`). -/
structure Collaborators where
  classifyQuery : String → Except String QueryClassification
  searchKnowledgeBaseWithSDK :
    String → SearchFilters → Except String (List KnowledgeBaseEntry)
  generateResponse :
    String → List KnowledgeBaseEntry → QueryClassification →
      Except String GenerationResult
  shouldEscalate :
    String → QueryClassification → GenerationResult → Except String Bool
  getSuggestedActions : QueryClassification → GenerationResult → Bool → List String
  userSaveOutcome : Except String Unit := .ok ()
  assistantSaveOutcome : Except String Unit := .ok ()

/-- Embedding of `ChatService.processMessage`: resolve the conversation
id (`request.conversation_id || generateConversationId()`), classify,
search the knowledge base with `searchFiltersOf`, generate, evaluate
escalation, compute suggested actions and priority, assemble the
response, then append the user message and the assistant message. Any
error thrown in the try-block is rethrown as
`Failed to process message: <cause>`; `saveMessage` never throws. -/
def processMessage (env : PipelineEnv) (c : Collaborators)
    (s : ConversationStore) (request : ChatRequest) :
    Except String (ChatResponse × ConversationStore) :=
  let conversationId := jsOrStr request.conversation_id env.genConvId
  match c.classifyQuery request.message with
  | .error e => .error ("Failed to process message: " ++ e)
  | .ok classification =>
    match c.searchKnowledgeBaseWithSDK request.message
        (searchFiltersOf classification) with
    | .error e => .error ("Failed to process message: " ++ e)
    | .ok knowledgeBaseResults =>
      match c.generateResponse request.message knowledgeBaseResults
          classification with
      | .error e => .error ("Failed to process message: " ++ e)
      | .ok generationResult =>
        match c.shouldEscalate request.message classification
            generationResult with
        | .error e => .error ("Failed to process message: " ++ e)
        | .ok requiresEscalation =>
          let suggestedActions :=
            c.getSuggestedActions classification generationResult
              requiresEscalation
          let response : ChatResponse :=
            { message := generationResult.response
              confidence := generationResult.confidence
              sources := knowledgeBaseResults
              suggested_actions := suggestedActions
              requires_escalation := requiresEscalation
              conversation_id := conversationId
              metadata :=
                { processing_time := env.processingTime
                  category := classification.category
                  priority := determinePriority classification requiresEscalation } }
          let s1 := (saveMessage c.userSaveOutcome s conversationId
            { id := env.userMsgId
              content := request.message
              role := "user"
              timestamp := env.userMsgTime }).1
          let s2 := (saveMessage c.assistantSaveOutcome s1 conversationId
            { id := env.assistantMsgId
              content := response.message
              role := "assistant"
              timestamp := env.assistantMsgTime
              metadata := some
                { confidence := some response.confidence
                  sources := some (response.sources.map KnowledgeBaseEntry.title)
                  category := some classification.category
                  priority := some (determinePriority classification
                    response.requires_escalation) } }).1
          .ok (response, s2)

/-- Metadata object attached to a raw knowledge-base hit, as far as the
normalization reads it; every field is optional. -/
structure KBMetadata where
  title : Option String := none
  content : Option String := none
  category : Option String := none
  priority : Option String := none
  product_type : Option String := none
  tags : Option (List String) := none
  last_updated : Option Nat := none
  deriving Repr, DecidableEq

/-- The `metadata` column of a raw hit: absent (falsy, so the code
substitutes `{}`), a value that is or parses to a JSON object, or a string
on which `JSON.parse` throws a `SyntaxError`. -/
inductive MetadataVal where
  | absent
  | obj (m : KBMetadata)
  | malformed (raw : String)
  deriving Repr, DecidableEq

/-- Message of the error `JSON.parse` raises on invalid input; the exact
wording is engine specific and does not matter to the claims, only that
the parse throws. -/
def jsonParseErrorMsg (raw : String) : String :=
  "Unexpected token in JSON: " ++ raw

/-- JSON parsing of the metadata column: `JSON.parse(row.metadata || '{}')`
in the SQL path, and `typeof m === 'string' ? JSON.parse(m) : m || {}` in
the SDK path — absent becomes the empty object, a well-formed value is the
object itself, a malformed string throws. -/
def parseMetadata : MetadataVal → Except String KBMetadata
  | .absent => .ok {}
  | .obj m => .ok m
  | .malformed raw => .error (jsonParseErrorMsg raw)

/-- A raw hit as the engine returns it (columns of the two SELECTs);
`none` is an absent / undefined column. -/
structure RawRow where
  id : Option String := none
  chunk_id : Option String := none
  chunk_content : Option String := none
  metadata : MetadataVal := .absent
  relevance : Option ℚ := none
  distance : Option ℚ := none
  deriving Repr, DecidableEq

/-- JS `a || b` where both sides are optional strings: keeps `b` as is
when `a` is absent or empty. -/
def jsOrOptStr (a b : Option String) : Option String :=
  match a with
  | some s => if s = "" then b else some s
  | none => b

/-- JS `a || d` on an optional number: the default applies when the value
is absent or `0` (falsy). -/
def jsOrQ (a : Option ℚ) (d : ℚ) : ℚ :=
  match a with
  | some q => if q = 0 then d else q
  | none => d

/-- JS `a || d` on an optional integer timestamp. -/
def jsOrNat (a : Option Nat) (d : Nat) : Nat :=
  match a with
  | some n => if n = 0 then d else n
  | none => d

/-- Normalization of one row in `searchKnowledgeBase` (the plain-SQL
path): parse the metadata string, then build the entry with per-field
fallbacks (`metadata.title || ''`, `metadata.content ||
row.chunk_content`, `metadata.category || 'general'`, `metadata.priority
|| 'medium'`, `metadata.tags || []`, `new Date(metadata.last_updated ||
Date.now())`); id, chunk_content, relevance, distance are copied raw. -/
def normalizeSQLRow (now : Nat) (row : RawRow) :
    Except String KnowledgeBaseEntry :=
  match parseMetadata row.metadata with
  | .error e => .error e
  | .ok m => .ok
      { id := row.id
        title := jsOrStr m.title ""
        content := jsOrOptStr m.content row.chunk_content
        category := jsOrStr m.category "general"
        priority := jsOrStr m.priority "medium"
        product_type := m.product_type
        tags := m.tags.getD []
        last_updated := jsOrNat m.last_updated now
        chunk_content := row.chunk_content
        relevance := row.relevance
        distance := row.distance }

/-- Title fallback chain of the SDK normalization: `metadata.title ||
result.chunk_content?.substring(0, 50) + '...' || 'Untitled'`. When
`chunk_content` is undefined the middle term is the JS concatenation
`undefined + '...'`, the non-empty string "undefined...", so the literal
"Untitled" is unreachable. -/
def sdkTitleFallback : Option String → String
  | some c => c.take 50 ++ "..."
  | none => "undefined..."

/-- Normalization of one row in `searchKnowledgeBaseWithSDK`: metadata is
parsed only when it arrives as a string; id falls back from `result.id`
to `result.chunk_id` to a generated id, title to the chunk prefix,
content is `result.chunk_content || metadata.content || ''`, relevance
defaults to 0 and distance to 1. -/
def normalizeSDKRow (now : Nat) (genId : String) (row : RawRow) :
    Except String KnowledgeBaseEntry :=
  match parseMetadata row.metadata with
  | .error e => .error e
  | .ok m => .ok
      { id := some (jsOrStr row.id (jsOrStr row.chunk_id genId))
        title := jsOrStr m.title (sdkTitleFallback row.chunk_content)
        content := some (jsOrStr row.chunk_content (jsOrStr m.content ""))
        category := jsOrStr m.category "general"
        priority := jsOrStr m.priority "medium"
        product_type := m.product_type
        tags := m.tags.getD []
        last_updated := jsOrNat m.last_updated now
        chunk_content := row.chunk_content
        relevance := some (jsOrQ row.relevance 0)
        distance := some (jsOrQ row.distance 1) }

/-- One search call's view of the external engine: whether
`getMindsDBClient` yields a client, the outcome of the single
`client.SQL.runQuery` the SDK path issues, the outcome of the single
`executeQuery` the plain-SQL path issues, the clock value feeding
normalization defaults, and the generated fallback id. The SQL text both
paths build is opaque here: each row list stands for whatever the engine
returns for this query and these filters. -/
structure KBEngine where
  clientAvailable : Bool
  sdkRows : Except String (List RawRow)
  sqlRows : Except String (List RawRow)
  now : Nat
  genId : String

/-- Embedding of `KnowledgeBaseService.searchKnowledgeBase`: one
`executeQuery` call, rows normalized by `normalizeSQLRow`; any error in
the try-block (engine failure or a metadata parse failure) is rethrown as
`Failed to search knowledge base: <cause>`. -/
def searchKnowledgeBase (eng : KBEngine) :
    Except String (List KnowledgeBaseEntry) :=
  match eng.sqlRows with
  | .error e => .error ("Failed to search knowledge base: " ++ e)
  | .ok rows =>
      match rows.mapM (normalizeSQLRow eng.now) with
      | .error e => .error ("Failed to search knowledge base: " ++ e)
      | .ok entries => .ok entries

/-- Embedding of `KnowledgeBaseService.searchKnowledgeBaseWithSDK`: when
no SDK client is available it delegates to `searchKnowledgeBase`;
otherwise it runs the SDK query and normalizes with `normalizeSDKRow`,
and its catch-all handler answers any failure (engine or normalization)
by falling back to `searchKnowledgeBase` — it never rethrows itself. -/
def searchKnowledgeBaseWithSDK (eng : KBEngine) :
    Except String (List KnowledgeBaseEntry) :=
  if eng.clientAvailable then
    match eng.sdkRows with
    | .error _ => searchKnowledgeBase eng
    | .ok rows =>
        match rows.mapM (normalizeSDKRow eng.now eng.genId) with
        | .error _ => searchKnowledgeBase eng
        | .ok entries => .ok entries
  else searchKnowledgeBase eng

/-- Specification-side priority function, transcribed from the spec's
§4.4 bullet list: escalated = true → high; else category ∈ {billing,
refund, complaint} → high; else category ∈ {technical, shipping, returns}
→ medium; else → low. Compared against `determinePriority` in C2. -/
def priorityOfSpec (category : String) (escalated : Bool) : String :=
  if escalated then "high"
  else if category = "billing" ∨ category = "refund" ∨ category = "complaint" then
    "high"
  else if category = "technical" ∨ category = "shipping" ∨ category = "returns" then
    "medium"
  else "low"

/-- Concrete nondeterministic inputs for witness scenarios. -/
def wEnv : PipelineEnv :=
  { genConvId := "conv_gen"
    userMsgId := "mu"
    assistantMsgId := "ma"
    userMsgTime := 1
    assistantMsgTime := 2
    processingTime := 3 }

/-- Concrete classifier output for witness scenarios. -/
def wClassification : QueryClassification :=
  { category := "technical", confidence := 9 / 10 }

/-- Concrete generator output for witness scenarios. -/
def wGen : GenerationResult :=
  { response := "try resetting", confidence := 4 / 5 }

/-- Concrete request for witness scenarios. -/
def wRequest : ChatRequest := { message := "How do I reset my password?" }

/-- Collaborators that all succeed (saves included). -/
def wColl : Collaborators :=
  { classifyQuery := fun _ => .ok wClassification
    searchKnowledgeBaseWithSDK := fun _ _ => .ok []
    generateResponse := fun _ _ _ => .ok wGen
    shouldEscalate := fun _ _ _ => .ok false
    getSuggestedActions := fun _ _ _ => ["check the guide"] }

/-- Collaborators that all succeed while both `saveMessage` try-bodies
fail (the hypothetical persistent-store write error the source's catch
anticipates). -/
def c5Coll : Collaborators :=
  { classifyQuery := fun _ => .ok wClassification
    searchKnowledgeBaseWithSDK := fun _ _ => .ok []
    generateResponse := fun _ _ _ => .ok wGen
    shouldEscalate := fun _ _ _ => .ok false
    getSuggestedActions := fun _ _ _ => ["check the guide"]
    userSaveOutcome := .error "persistent store write failed"
    assistantSaveOutcome := .error "persistent store write failed" }

/-- Collaborators whose classifier throws. -/
def c5ClassifierFailColl : Collaborators :=
  { classifyQuery := fun _ => .error "model down"
    searchKnowledgeBaseWithSDK := fun _ _ => .ok []
    generateResponse := fun _ _ _ => .ok wGen
    shouldEscalate := fun _ _ _ => .ok false
    getSuggestedActions := fun _ _ _ => [] }

/-- Collaborators for the escalation-statistics scenario: a "billing"
classification and a generator/escalation pair that flags escalation. -/
def c3Coll : Collaborators :=
  { classifyQuery := fun _ => .ok { category := "billing", confidence := 9 / 10 }
    searchKnowledgeBaseWithSDK := fun _ _ => .ok []
    generateResponse := fun _ _ _ => .ok { response := "refund started", confidence := 4 / 5 }
    shouldEscalate := fun _ _ _ => .ok true
    getSuggestedActions := fun _ _ _ => ["contact support"] }

/-- Request of the escalation-statistics scenario. -/
def c3Request : ChatRequest := { message := "I want a refund now" }

/-- The response the escalation-statistics scenario produces. -/
def c3Response : ChatResponse :=
  { message := "refund started"
    confidence := 4 / 5
    sources := []
    suggested_actions := ["contact support"]
    requires_escalation := true
    conversation_id := "conv_gen"
    metadata := { processing_time := 3, category := "billing", priority := "high" } }

/-- The store the escalation-statistics scenario leaves behind: one
conversation holding the user message and the escalated assistant
message, whose metadata category is "billing" (never "escalation"). -/
def c3FinalStore : ConversationStore :=
  [("conv_gen",
    [{ id := "mu", content := "I want a refund now", role := "user", timestamp := 1 },
     { id := "ma", content := "refund started", role := "assistant", timestamp := 2,
       metadata := some
         { confidence := some (4 / 5)
           sources := some []
           category := some "billing"
           priority := some "high" } }])]

/-- A one-conversation store for the clear-conversation witness. -/
def c4Store : ConversationStore :=
  [("conv_1", [{ id := "m1", content := "hello", role := "user", timestamp := 0 }])]

/-- A two-conversation store (2 and 3 messages) for the statistics
witness. -/
def statsStore : ConversationStore :=
  [("conv_a",
    [{ id := "u1", content := "hi", role := "user", timestamp := 0 },
     { id := "a1", content := "hello", role := "assistant", timestamp := 1 }]),
   ("conv_b",
    [{ id := "u2", content := "ping", role := "user", timestamp := 2 },
     { id := "a2", content := "pong", role := "assistant", timestamp := 3 },
     { id := "u3", content := "thanks", role := "user", timestamp := 4 }])]

/-- A well-formed raw hit for the retrieval-fallback counterexample. -/
def c6Row : RawRow :=
  { id := some "kb_1"
    chunk_content := some "Reset your password from the login page"
    metadata := .obj { title := some "Password Reset Guide" }
    relevance := some (95 / 100)
    distance := some (5 / 100) }

/-- Engine for the retrieval-fallback counterexample: the SDK query
fails, the plain SQL query succeeds with one row. -/
def c6Engine : KBEngine :=
  { clientAvailable := true
    sdkRows := .error "mindsdb connection refused"
    sqlRows := .ok [c6Row]
    now := 42
    genId := "kb_gen" }

/-- Engine whose SDK and SQL calls both fail. -/
def c6FailEngine : KBEngine :=
  { clientAvailable := true
    sdkRows := .error "sdk down"
    sqlRows := .error "sql down"
    now := 0
    genId := "kb_gen" }

/-- A raw hit whose metadata string is not valid JSON. -/
def c8BadRow : RawRow :=
  { id := some "kb_2"
    chunk_content := some "some chunk"
    metadata := .malformed "not json" }

/-- Engine returning the malformed-metadata row on the SQL path. -/
def c8Engine : KBEngine :=
  { clientAvailable := false
    sdkRows := .ok []
    sqlRows := .ok [c8BadRow]
    now := 0
    genId := "kb_gen" }

/-- A raw hit with no metadata at all: every field must default. -/
def c8GoodRow : RawRow :=
  { id := some "kb_3"
    chunk_content := some "just text"
    metadata := .absent
    relevance := some (8 / 10) }

/-- C2: for every classification category, confidence and escalation
flag, `determinePriority` computes exactly the spec's case analysis —
escalated → "high"; else billing/refund/complaint → "high"; else
technical/shipping/returns → "medium"; else "low". Purity and determinism
hold by construction: it is a function of exactly these inputs. -/
theorem determinePriority_matches_spec (category : String) (confidence : ℚ)
    (escalated : Bool) :
    determinePriority ⟨category, confidence⟩ escalated =
      priorityOfSpec category escalated := by
  unfold determinePriority priorityOfSpec highPriorityCategories
    mediumPriorityCategories
  cases escalated <;> simp [List.contains]

/-- C9: the filter record `processMessage` hands to the knowledge
retriever carries limit 5 and relevance_threshold 0.7, its category is
the classification's category unless that is "general" (then it is
omitted), and no other filter field is set. -/
theorem searchFiltersOf_matches_claim (classification : QueryClassification) :
    (searchFiltersOf classification).limit = some 5 ∧
    (searchFiltersOf classification).relevance_threshold = some (7 / 10) ∧
    (searchFiltersOf classification).category =
      (if classification.category = "general" then none
       else some classification.category) ∧
    (searchFiltersOf classification).priority = none ∧
    (searchFiltersOf classification).product_type = none := by
  unfold searchFiltersOf
  refine ⟨rfl, rfl, ?_, rfl, rfl⟩
  by_cases h : classification.category = "general" <;> simp [h]

/-- C10: `getUserConversations` ignores its userId argument — any two
user ids yield the same list on the same store — and a conversation id is
listed exactly when some entry of the store holds it together with at
least one message of role "user", regardless of which user sent it. -/
theorem getUserConversations_ignores_userId (u1 u2 : String)
    (s : ConversationStore) (cid : String) :
    getUserConversations u1 s = getUserConversations u2 s ∧
    (cid ∈ getUserConversations u1 s ↔
      ∃ p ∈ s, p.1 = cid ∧ ∃ m ∈ p.2, m.role = "user") := by
  constructor
  · rfl
  · unfold getUserConversations
    simp only [List.mem_map, List.mem_filter, List.any_eq_true, beq_iff_eq]
    constructor
    · rintro ⟨p, ⟨hp, m, hm, hrole⟩, hfst⟩
      exact ⟨p, hp, hfst, m, hm, hrole⟩
    · rintro ⟨p, hp, hfst, m, hm, hrole⟩
      exact ⟨p, ⟨hp, m, hm, hrole⟩, hfst⟩

/-- C4 counterexample: on the empty store the id "conv_missing" was never
created, yet `clearConversation` reports `true` — refuting "returns true
if and only if a conversation with that id existed". -/
theorem clearConversation_always_true_counterexample :
    mapGet ([] : ConversationStore) "conv_missing" = none ∧
    (clearConversation ([] : ConversationStore) "conv_missing").2 = true :=
  ⟨rfl, rfl⟩

/-- C4 amended: `clearConversation` returns `true` unconditionally — on a
never-created id as well as on an existing one — and after the call the
history of that id is empty (stated for stores with pairwise-distinct
conversation ids, which the JS `Map` guarantees). -/
theorem clearConversation_amended (s : ConversationStore) (cid : String)
    (hnd : (s.map Prod.fst).Nodup) :
    (clearConversation s cid).2 = true ∧
    getConversationHistory (clearConversation s cid).1 cid = [] := by
  refine ⟨rfl, ?_⟩
  unfold getConversationHistory clearConversation
  simp [mapGet_mapDelete_same s cid hnd]

/-- Witness for the amended C4: clearing the one existing conversation of
a concrete store returns true and leaves its history empty. -/
theorem clearConversation_amended_witness :
    ((c4Store.map Prod.fst).Nodup) ∧
    ((clearConversation c4Store "conv_1").2 = true ∧
      getConversationHistory (clearConversation c4Store "conv_1").1 "conv_1" = []) :=
  ⟨by decide, clearConversation_amended c4Store "conv_1" (by decide)⟩

/-- C7: the reported average is total messages over total conversations
rounded to two decimals, and 0 when there are no conversations (the
division is guarded, never performed on zero). -/
theorem getStats_average_messages (s : ConversationStore) :
    ((getStats s).total_conversations = 0 →
      (getStats s).average_messages_per_conversation = 0) ∧
    ((getStats s).total_conversations ≠ 0 →
      (getStats s).average_messages_per_conversation =
        roundTo2 (((getStats s).total_messages : ℚ) /
          ((getStats s).total_conversations : ℚ))) := by
  unfold getStats
  by_cases h : s.length = 0 <;>
    simp [h, Nat.pos_of_ne_zero]

/-- Witness for C7: on a concrete store with 2 conversations and 5
messages the nonzero branch of the theorem applies. -/
theorem getStats_average_messages_witness :
    (getStats statsStore).total_conversations ≠ 0 ∧
    (getStats statsStore).average_messages_per_conversation =
      roundTo2 (((getStats statsStore).total_messages : ℚ) /
        ((getStats statsStore).total_conversations : ℚ)) :=
  ⟨by decide, (getStats_average_messages statsStore).2 (by decide)⟩

/-- C1: a `processMessage` call in which the collaborators succeed and
the two in-memory appends complete (as they always do for the in-memory
store — see `saveMessage`) returns ok and appends exactly two messages to
the resolved conversation's history, the user message (carrying the
request text) immediately before the assistant message, while every other
conversation's history is untouched. -/
theorem processMessage_appends_two_messages (env : PipelineEnv)
    (c : Collaborators) (s : ConversationStore) (request : ChatRequest)
    (classification : QueryClassification)
    (entries : List KnowledgeBaseEntry) (gen : GenerationResult) (esc : Bool)
    (h1 : c.classifyQuery request.message = .ok classification)
    (h2 : c.searchKnowledgeBaseWithSDK request.message
      (searchFiltersOf classification) = .ok entries)
    (h3 : c.generateResponse request.message entries classification = .ok gen)
    (h4 : c.shouldEscalate request.message classification gen = .ok esc)
    (h5 : c.userSaveOutcome = .ok ())
    (h6 : c.assistantSaveOutcome = .ok ()) :
    ∃ response s2,
      processMessage env c s request = .ok (response, s2) ∧
      (∃ userMsg assistantMsg,
        userMsg.role = "user" ∧ userMsg.content = request.message ∧
        assistantMsg.role = "assistant" ∧
        getConversationHistory s2 (jsOrStr request.conversation_id env.genConvId) =
          getConversationHistory s (jsOrStr request.conversation_id env.genConvId)
            ++ [userMsg, assistantMsg]) ∧
      (∀ cid, cid ≠ jsOrStr request.conversation_id env.genConvId →
        getConversationHistory s2 cid = getConversationHistory s cid) := by
  unfold processMessage
  simp only [h1, h2, h3, h4, h5, h6, saveMessage]
  refine ⟨_, _, rfl, ?_, ?_⟩
  · use { id := env.userMsgId
          content := request.message
          role := "user"
          timestamp := env.userMsgTime }
    use { id := env.assistantMsgId
          content := gen.response
          role := "assistant"
          timestamp := env.assistantMsgTime
          metadata := some
            { confidence := some gen.confidence
              sources := some (entries.map KnowledgeBaseEntry.title)
              category := some classification.category
              priority := some (determinePriority classification esc) } }
    refine ⟨rfl, rfl, rfl, ?_⟩
    unfold getConversationHistory
    rw [mapGet_mapSet_same, mapGet_mapSet_same]
    simp
  · intro cid hne
    unfold getConversationHistory
    rw [mapGet_mapSet_other _ _ _ _ hne, mapGet_mapSet_other _ _ _ _ hne]

/-- Witness for C1: a concrete all-successful call on the empty store. -/
theorem processMessage_appends_two_messages_witness :
    ∃ response s2,
      processMessage wEnv wColl [] wRequest = .ok (response, s2) ∧
      (∃ userMsg assistantMsg,
        userMsg.role = "user" ∧ userMsg.content = wRequest.message ∧
        assistantMsg.role = "assistant" ∧
        getConversationHistory s2 (jsOrStr wRequest.conversation_id wEnv.genConvId) =
          getConversationHistory ([] : ConversationStore)
              (jsOrStr wRequest.conversation_id wEnv.genConvId)
            ++ [userMsg, assistantMsg]) ∧
      (∀ cid, cid ≠ jsOrStr wRequest.conversation_id wEnv.genConvId →
        getConversationHistory s2 cid =
          getConversationHistory ([] : ConversationStore) cid) :=
  processMessage_appends_two_messages wEnv wColl [] wRequest wClassification
    [] wGen false rfl rfl rfl rfl rfl rfl

/-- C5 counterexample: with every collaborator succeeding but both store
appends failing, `processMessage` still returns ok with the untouched
store — the append failure is swallowed inside `saveMessage` (which
returns false, a value `processMessage` discards) and does not abort the
operation, contrary to the claim's "a store-append failure also aborts
the operation". -/
theorem saveFailure_does_not_abort_counterexample :
    c5Coll.userSaveOutcome = .error "persistent store write failed" ∧
    ∃ response, processMessage wEnv c5Coll [] wRequest = .ok (response, []) :=
  ⟨rfl, ⟨_, rfl⟩⟩

/-- C5 amended: a failure in classification, retrieval, generation or
escalation evaluation aborts `processMessage` with the single wrapped
failure "Failed to process message: " followed by the cause's message,
and is not retried (each collaborator is consulted at most once by
construction); a store-append failure however does not abort —
`saveMessage` swallows it and returns false, which `processMessage`
ignores, so the call still returns the assembled response whatever the
two append outcomes are. -/
theorem processMessage_error_policy (env : PipelineEnv) (c : Collaborators)
    (s : ConversationStore) (request : ChatRequest) :
    (∀ e, c.classifyQuery request.message = .error e →
      processMessage env c s request =
        .error ("Failed to process message: " ++ e)) ∧
    (∀ cls e, c.classifyQuery request.message = .ok cls →
      c.searchKnowledgeBaseWithSDK request.message (searchFiltersOf cls) =
        .error e →
      processMessage env c s request =
        .error ("Failed to process message: " ++ e)) ∧
    (∀ cls entries e, c.classifyQuery request.message = .ok cls →
      c.searchKnowledgeBaseWithSDK request.message (searchFiltersOf cls) =
        .ok entries →
      c.generateResponse request.message entries cls = .error e →
      processMessage env c s request =
        .error ("Failed to process message: " ++ e)) ∧
    (∀ cls entries gen e, c.classifyQuery request.message = .ok cls →
      c.searchKnowledgeBaseWithSDK request.message (searchFiltersOf cls) =
        .ok entries →
      c.generateResponse request.message entries cls = .ok gen →
      c.shouldEscalate request.message cls gen = .error e →
      processMessage env c s request =
        .error ("Failed to process message: " ++ e)) ∧
    (∀ cls entries gen esc, c.classifyQuery request.message = .ok cls →
      c.searchKnowledgeBaseWithSDK request.message (searchFiltersOf cls) =
        .ok entries →
      c.generateResponse request.message entries cls = .ok gen →
      c.shouldEscalate request.message cls gen = .ok esc →
      ∃ response s2, processMessage env c s request = .ok (response, s2)) := by
  refine ⟨?_, ?_, ?_, ?_, ?_⟩
  · intro e h1
    unfold processMessage
    simp only [h1]
  · intro cls e h1 h2
    unfold processMessage
    simp only [h1, h2]
  · intro cls entries e h1 h2 h3
    unfold processMessage
    simp only [h1, h2, h3]
  · intro cls entries gen e h1 h2 h3 h4
    unfold processMessage
    simp only [h1, h2, h3, h4]
  · intro cls entries gen esc h1 h2 h3 h4
    unfold processMessage
    simp only [h1, h2, h3, h4]
    exact ⟨_, _, rfl⟩

/-- Witness for the amended C5: a concrete failing classifier yields the
wrapped generic failure. -/
theorem processMessage_error_policy_witness :
    processMessage wEnv c5ClassifierFailColl [] wRequest =
      .error ("Failed to process message: " ++ "model down") :=
  (processMessage_error_policy wEnv c5ClassifierFailColl [] wRequest).1
    "model down" rfl

/-- C3 (code bug): a `processMessage` whose response carries
requires_escalation = true leaves the store in a state where `getStats`
still reports escalation_rate = 0 — the scan recognizes a conversation as
escalated only through an assistant message with metadata category
"escalation", a value the pipeline never writes (it writes the
classification's category, here "billing"), so no pipeline-written
conversation can ever count. -/
theorem getStats_escalation_rate_bug :
    processMessage wEnv c3Coll [] c3Request = .ok (c3Response, c3FinalStore) ∧
    c3Response.requires_escalation = true ∧
    (getStats c3FinalStore).total_conversations = 1 ∧
    (getStats c3FinalStore).escalation_rate = 0 := by
  refine ⟨rfl, rfl, rfl, ?_⟩
  have hfilt : (c3FinalStore.filter fun p => hasEscalationMessage p.2) = [] := by
    simp [c3FinalStore, hasEscalationMessage]
  have h0 : roundTo2 ((0 : ℚ) / 1) = 0 := by
    unfold roundTo2 jsRound
    norm_num [Int.floor_eq_iff]
  unfold getStats
  simp only [hfilt]
  simpa [c3FinalStore] using h0

/-- C6 counterexample: the engine's SDK query fails, yet
`searchKnowledgeBaseWithSDK` does not fail — its catch-all handler falls
back to the plain SQL search and returns that path's results, refuting
"it is not retried automatically and there is no fallback that returns
results from an alternative search path". -/
theorem searchWithSDK_fallback_counterexample :
    c6Engine.sdkRows = .error "mindsdb connection refused" ∧
    ∃ entries, searchKnowledgeBaseWithSDK c6Engine = .ok entries ∧
      entries ≠ [] := by
  refine ⟨rfl, _, rfl, ?_⟩
  simp [searchKnowledgeBaseWithSDK, searchKnowledgeBase, c6Engine,
    normalizeSQLRow, parseMetadata, c6Row]

/-- C6 amended: when the plain-SQL engine call fails,
`searchKnowledgeBase` fails with the wrapped retrieval failure "Failed to
search knowledge base: " plus the cause, issuing exactly one engine call
(no retry by construction); `searchKnowledgeBaseWithSDK` answers an SDK
failure by falling back once to `searchKnowledgeBase`, so it fails — with
that same fallback error — only when the fallback's engine call fails
too. -/
theorem search_failure_policy (eng : KBEngine) (e1 e2 : String)
    (hsdk : eng.sdkRows = .error e1) (hsql : eng.sqlRows = .error e2) :
    searchKnowledgeBase eng =
      .error ("Failed to search knowledge base: " ++ e2) ∧
    searchKnowledgeBaseWithSDK eng =
      .error ("Failed to search knowledge base: " ++ e2) := by
  have hkb : searchKnowledgeBase eng =
      .error ("Failed to search knowledge base: " ++ e2) := by
    unfold searchKnowledgeBase
    simp only [hsql]
  refine ⟨hkb, ?_⟩
  unfold searchKnowledgeBaseWithSDK
  by_cases h : eng.clientAvailable <;> simp [h, hsdk, hkb]

/-- Witness for the amended C6: with both engine paths failing, both
search entry points surface the single wrapped retrieval failure of the
SQL path. -/
theorem search_failure_policy_witness :
    searchKnowledgeBase c6FailEngine =
      .error ("Failed to search knowledge base: " ++ "sql down") ∧
    searchKnowledgeBaseWithSDK c6FailEngine =
      .error ("Failed to search knowledge base: " ++ "sql down") :=
  search_failure_policy c6FailEngine "sdk down" "sql down" rfl rfl

/-- C8 counterexample: a raw hit whose metadata string is not valid JSON
makes the normalization throw — `JSON.parse` raises before any field
defaulting — so `searchKnowledgeBase` fails on such a row instead of
failing soft, refuting "malformed or missing metadata never causes the
normalization to raise". -/
theorem normalize_malformed_counterexample :
    normalizeSQLRow 0 c8BadRow = .error (jsonParseErrorMsg "not json") ∧
    searchKnowledgeBase c8Engine =
      .error ("Failed to search knowledge base: " ++
        jsonParseErrorMsg "not json") :=
  ⟨rfl, rfl⟩

/-- C8 amended: for a raw hit whose metadata is absent or is (or parses
to) an object, normalization never raises on either path: with absent
metadata every field defaults (title "", content falling back to the raw
chunk, category "general", priority "medium", empty tags, last_updated
now); with a metadata object each field is taken from it when present
(truthy) and defaulted otherwise. Only a metadata string that fails JSON
parsing makes normalization throw. -/
theorem normalize_field_defaults (now : Nat) (genId : String) (row : RawRow) :
    (row.metadata = .absent →
      normalizeSQLRow now row = .ok
        { id := row.id
          title := ""
          content := row.chunk_content
          category := "general"
          priority := "medium"
          product_type := none
          tags := []
          last_updated := now
          chunk_content := row.chunk_content
          relevance := row.relevance
          distance := row.distance }) ∧
    (∀ m, row.metadata = .obj m →
      normalizeSQLRow now row = .ok
        { id := row.id
          title := jsOrStr m.title ""
          content := jsOrOptStr m.content row.chunk_content
          category := jsOrStr m.category "general"
          priority := jsOrStr m.priority "medium"
          product_type := m.product_type
          tags := m.tags.getD []
          last_updated := jsOrNat m.last_updated now
          chunk_content := row.chunk_content
          relevance := row.relevance
          distance := row.distance }) ∧
    ((∀ raw, row.metadata ≠ .malformed raw) →
      (∃ entry, normalizeSQLRow now row = .ok entry) ∧
      (∃ entry, normalizeSDKRow now genId row = .ok entry)) := by
  refine ⟨?_, ?_, ?_⟩
  · intro h
    unfold normalizeSQLRow
    simp [h, parseMetadata, jsOrStr, jsOrOptStr, jsOrNat]
  · intro m h
    unfold normalizeSQLRow
    simp [h, parseMetadata]
  · intro hmal
    obtain ⟨m, hm⟩ : ∃ m, parseMetadata row.metadata = .ok m := by
      cases hrow : row.metadata with
      | absent => exact ⟨_, rfl⟩
      | obj m2 => exact ⟨m2, rfl⟩
      | malformed raw => exact absurd hrow (hmal raw)
    constructor
    · refine ⟨{ id := row.id
                title := jsOrStr m.title ""
                content := jsOrOptStr m.content row.chunk_content
                category := jsOrStr m.category "general"
                priority := jsOrStr m.priority "medium"
                product_type := m.product_type
                tags := m.tags.getD []
                last_updated := jsOrNat m.last_updated now
                chunk_content := row.chunk_content
                relevance := row.relevance
                distance := row.distance }, ?_⟩
      unfold normalizeSQLRow
      rw [hm]
    · refine ⟨{ id := some (jsOrStr row.id (jsOrStr row.chunk_id genId))
                title := jsOrStr m.title (sdkTitleFallback row.chunk_content)
                content := some (jsOrStr row.chunk_content (jsOrStr m.content ""))
                category := jsOrStr m.category "general"
                priority := jsOrStr m.priority "medium"
                product_type := m.product_type
                tags := m.tags.getD []
                last_updated := jsOrNat m.last_updated now
                chunk_content := row.chunk_content
                relevance := some (jsOrQ row.relevance 0)
                distance := some (jsOrQ row.distance 1) }, ?_⟩
      unfold normalizeSDKRow
      rw [hm]

/-- Witness for the amended C8: a concrete row with no metadata
normalizes without raising, every field defaulted. -/
theorem normalize_field_defaults_witness :
    c8GoodRow.metadata = MetadataVal.absent ∧
    normalizeSQLRow 7 c8GoodRow = .ok
      { id := some "kb_3"
        title := ""
        content := some "just text"
        category := "general"
        priority := "medium"
        product_type := none
        tags := []
        last_updated := 7
        chunk_content := some "just text"
        relevance := some (8 / 10)
        distance := none } :=
  ⟨rfl, (normalize_field_defaults 7 "g" c8GoodRow).1 rfl⟩

end SupportApp
